import Mathlib

/-!
Shallow embedding of the var-gold signal-detection and position-lifecycle
engine (src/src/signals.py, src/src/models.py, src/src/storage.py,
src/src/position_manager.py, src/src/config_store.py).

Conventions of the embedding:
* Python floats (spreads, thresholds, buffers) are modelled as rationals
  (`ℚ`); timestamps (milliseconds) and second counts as `Int`.
* The DynamoDB positions table is a list of records; DynamoDB guarantees
  key uniqueness, which appears here as explicit `UniqueIds` hypotheses
  where a proof needs it.  A conditional `update_item` whose
  `ConditionExpression` fails (including a missing key) raises
  `ConditionalCheckFailedException`, which the Python code converts to
  `None` with no write; the embedding returns `(none, unchanged store)`.
* `uuid.uuid4()` is externalised: freshly generated ids are parameters.
* Notification message strings (`_open_signal_message`,
  `_close_signal_message`) are HTML texts whose exact rendering no claim
  touches; the embedding keeps the identity of the notified position and
  the repeat flag.  The opaque `metadata_json` blob is likewise dropped.
-/

namespace VarGold

/-- Status constants from src/src/models.py. -/
inductive Status where
  | openPendingConfirm
  | openConfirmed
  | closeSignalled
  | closed
deriving DecidableEq, Repr

/-- Source `PositionRecord` from src/src/models.py (metadata blob omitted, see
module comment). -/
structure PositionRecord where
  position_id : String
  status : Status
  created_at_ts : Int
  updated_at_ts : Int
  signal_spread : ℚ
  signal_ts : Int
  last_open_alert_ts : Int
  entry_spread_actual : Option ℚ := none
  opened_at_confirm_ts : Option Int := none
  close_trigger : Option ℚ := none
  close_signalled_ts : Option Int := none
  last_close_alert_ts : Option Int := none
  close_spread_actual : Option ℚ := none
  closed_at_confirm_ts : Option Int := none
  chat_id : Option String := none
deriving DecidableEq, Repr

/-- Source `MarketSnapshot` from src/src/models.py. -/
structure MarketSnapshot where
  ts_ms : Int
  paxg_bid : ℚ
  paxg_ask : ℚ
  xaut_bid : ℚ
  xaut_ask : ℚ
  spread_open : ℚ
  spread_close : ℚ
  paxg_funding : Option ℚ := none
  xaut_funding : Option ℚ := none
  funding_diff_raw : Option ℚ := none
  funding_diff_annual : Option ℚ := none
  annual_factor : ℚ := 365
  quote_size_paxg : String := ""
  quote_size_xaut : String := ""
  latency_ms : Int := 0
deriving DecidableEq, Repr

/-- The tunables of `RuntimeConfig` (src/src/models.py); connection
strings and table names are irrelevant to every claim but kept for
completeness. -/
structure RuntimeConfig where
  api_url : String := ""
  quote_size : String := ""
  pair : String := "PAXG_XAUT"
  poll_interval_sec : ℚ
  threshold_open : ℚ
  close_buffer : ℚ
  repeat_alert_sec : Int
  annual_factor : ℚ
  config_refresh_sec : Int
  data_ttl_days : Int := 90
  aws_region : String := ""
  ticks_table : String := ""
  positions_table : String := ""
  config_table : String := ""
  alerts_table : Option String := none
  tg_bot_token : Option String := none
  tg_allowed_chat_ids : List String := []
deriving DecidableEq, Repr

/-! ### src/src/signals.py -/

/-- Source `is_open_signal` (src/src/signals.py line 6). -/
def is_open_signal (snapshot : MarketSnapshot) (threshold_open : ℚ) : Bool :=
  snapshot.spread_open ≥ threshold_open

/-- Source `close_trigger` (src/src/signals.py line 10). -/
def close_trigger (entry_spread_actual close_buffer : ℚ) : ℚ :=
  -entry_spread_actual + close_buffer

/-- Source `is_close_signal` (src/src/signals.py line 14). -/
def is_close_signal (snapshot : MarketSnapshot) (position : PositionRecord) : Bool :=
  match position.close_trigger with
  | none => false
  | some ct => snapshot.spread_close ≥ ct

/-- Source `should_repeat` (src/src/signals.py line 20). -/
def should_repeat (last_alert_ts : Option Int) (now_ms : Int) (repeat_alert_sec : Int) : Bool :=
  match last_alert_ts with
  | none => true
  | some t => now_ms - t ≥ repeat_alert_sec * 1000

/-! ### src/src/storage.py — the positions table and its operations -/

/-- The DynamoDB positions table, as the list of its items. -/
abbrev Store := List PositionRecord

/-- Source `get_item` on the positions table keyed by `position_id`
(src/src/storage.py line 86): the (unique) item with that key. -/
def getPos : Store → String → Option PositionRecord
  | [], _ => none
  | p :: t, position_id =>
    if p.position_id = position_id then some p else getPos t position_id

/-- DynamoDB key uniqueness: at most one item per `position_id`. -/
def UniqueIds (s : Store) : Prop :=
  (s.map PositionRecord.position_id).Nodup

/-- An `update_item` write: the item with the key is replaced by the
updated item `p'` (whose key is unchanged). -/
def updateById : Store → String → PositionRecord → Store
  | [], _, _ => []
  | q :: t, position_id, p' =>
    (if q.position_id = position_id then p' else q) :: updateById t position_id p'

/-- Source `put_item`: inserts the item, replacing any item with the same key. -/
def put_item (s : Store) (p : PositionRecord) : Store :=
  if s.any (fun q => q.position_id == p.position_id) then
    updateById s p.position_id p
  else
    s ++ [p]

namespace DynamoStorage

/-- Source `DynamoStorage.create_pending_position` (src/src/storage.py line 65);
the `uuid.uuid4()` result is the `position_id` parameter. -/
def create_pending_position (s : Store) (position_id : String) (signal_spread : ℚ)
    (signal_ts : Int) (now_ms : Int) : PositionRecord × Store :=
  let item : PositionRecord :=
    { position_id := position_id
      status := Status.openPendingConfirm
      created_at_ts := now_ms
      updated_at_ts := now_ms
      signal_spread := signal_spread
      signal_ts := signal_ts
      last_open_alert_ts := now_ms }
  (item, put_item s item)

/-- Source `DynamoStorage.list_positions` (src/src/storage.py line 93): filter by
the requested statuses (no filter when the list is empty, matching the
Python `if statuses:` check), then sort ascending by `signal_ts` (Python
`list.sort` is stable, as is `List.mergeSort`). -/
def list_positions (s : Store) (statuses : List Status) : List PositionRecord :=
  let items := if statuses.isEmpty then s else s.filter (fun p => statuses.contains p.status)
  items.mergeSort (fun a b => a.signal_ts ≤ b.signal_ts)

/-- The updated item written by `DynamoStorage.confirm_open`
(src/src/storage.py lines 126-144). -/
def confirmOpenUpdate (p : PositionRecord) (entry_spread_actual close_buffer : ℚ)
    (now_ms : Int) (chat_id : String) : PositionRecord :=
  { p with
    status := Status.openConfirmed
    entry_spread_actual := some entry_spread_actual
    close_trigger := some (-entry_spread_actual + close_buffer)
    opened_at_confirm_ts := some now_ms
    updated_at_ts := now_ms
    chat_id := some chat_id }

/-- Source `DynamoStorage.confirm_open` (src/src/storage.py line 118): a
compare-and-swap conditioned on `status == OPEN_PENDING_CONFIRM`; a failed
condition (or missing key) returns `None` with no write. -/
def confirm_open (s : Store) (position_id : String) (entry_spread_actual close_buffer : ℚ)
    (now_ms : Int) (chat_id : String) : Option PositionRecord × Store :=
  match getPos s position_id with
  | none => (none, s)
  | some p =>
    if p.status = Status.openPendingConfirm then
      let p' := confirmOpenUpdate p entry_spread_actual close_buffer now_ms chat_id
      (some p', updateById s position_id p')
    else
      (none, s)

/-- Source `DynamoStorage.mark_open_alert_sent` (src/src/storage.py line 152):
unconditional stamp of the open-alert timestamp on the identified item. -/
def mark_open_alert_sent (s : Store) (position_id : String) (now_ms : Int) : Store :=
  match getPos s position_id with
  | none => s
  | some p =>
    updateById s position_id { p with last_open_alert_ts := now_ms, updated_at_ts := now_ms }

/-- The updated item written by `DynamoStorage.mark_close_signalled`
(src/src/storage.py lines 165-173). -/
def closeSignalledUpdate (p : PositionRecord) (now_ms : Int) : PositionRecord :=
  { p with
    status := Status.closeSignalled
    close_signalled_ts := some now_ms
    last_close_alert_ts := some now_ms
    updated_at_ts := now_ms }

/-- Source `DynamoStorage.mark_close_signalled` (src/src/storage.py line 161): a
compare-and-swap conditioned on `status == OPEN_CONFIRMED`. -/
def mark_close_signalled (s : Store) (position_id : String) (now_ms : Int) :
    Option PositionRecord × Store :=
  match getPos s position_id with
  | none => (none, s)
  | some p =>
    if p.status = Status.openConfirmed then
      let p' := closeSignalledUpdate p now_ms
      (some p', updateById s position_id p')
    else
      (none, s)

/-- Source `DynamoStorage.mark_close_alert_sent` (src/src/storage.py line 182):
unconditional stamp of the close-alert timestamp. -/
def mark_close_alert_sent (s : Store) (position_id : String) (now_ms : Int) :
    Option PositionRecord × Store :=
  match getPos s position_id with
  | none => (none, s)
  | some p =>
    let p' := { p with last_close_alert_ts := some now_ms, updated_at_ts := now_ms }
    (some p', updateById s position_id p')

/-- The updated item written by `DynamoStorage.close_position`
(src/src/storage.py lines 206-218). -/
def closeUpdate (p : PositionRecord) (close_spread_actual : ℚ) (now_ms : Int)
    (chat_id : String) : PositionRecord :=
  { p with
    status := Status.closed
    close_spread_actual := some close_spread_actual
    closed_at_confirm_ts := some now_ms
    updated_at_ts := now_ms
    chat_id := some chat_id }

/-- Source `DynamoStorage.close_position` (src/src/storage.py line 196): a
compare-and-swap conditioned on `status ∈ {OPEN_CONFIRMED, CLOSE_SIGNALLED}`. -/
def close_position (s : Store) (position_id : String) (close_spread_actual : ℚ)
    (now_ms : Int) (chat_id : String) : Option PositionRecord × Store :=
  match getPos s position_id with
  | none => (none, s)
  | some p =>
    if p.status = Status.openConfirmed ∨ p.status = Status.closeSignalled then
      let p' := closeUpdate p close_spread_actual now_ms chat_id
      (some p', updateById s position_id p')
    else
      (none, s)

end DynamoStorage

/-! ### src/src/position_manager.py -/

/-- One `notify(...)` call; the HTML message text is abstracted to the
notified position's id and the repeat flag that select it
(`_open_signal_message` / `_close_signal_message`). -/
inductive Notification where
  | openSignal (position_id : String) (is_repeat : Bool)
  | closeSignal (position_id : String) (is_repeat : Bool)
deriving DecidableEq, Repr

/-- One `put_alert(...)` payload (src/src/position_manager.py). -/
structure AlertPayload where
  ts_ms : Int
  alert_type : String
  position_id : String
  message : String
  spread : ℚ
deriving DecidableEq, Repr

/-- The effect of one manager tick: the resulting positions table, the
`notify` calls made, and the alert rows written, in order. -/
structure TickResult where
  store : Store
  notifications : List Notification
  alerts : List AlertPayload
deriving DecidableEq, Repr

namespace PositionManager

open DynamoStorage

/-- Source `PositionManager.process_open_signals` (src/src/position_manager.py
line 23); `fresh_id` is the uuid a created position would get. -/
def process_open_signals (s : Store) (snapshot : MarketSnapshot) (cfg : RuntimeConfig)
    (now_ms : Int) (fresh_id : String) : TickResult :=
  if ¬ is_open_signal snapshot cfg.threshold_open then
    ⟨s, [], []⟩
  else
    let pending := list_positions s [Status.openPendingConfirm]
    match pending.getLast? with
    | none =>
      let created := create_pending_position s fresh_id snapshot.spread_open snapshot.ts_ms now_ms
      ⟨created.2, [Notification.openSignal created.1.position_id false],
        [{ ts_ms := now_ms, alert_type := "OPEN_SIGNAL",
           position_id := created.1.position_id, message := "open signal created",
           spread := snapshot.spread_open }]⟩
    | some latest_pending =>
      if should_repeat (some latest_pending.last_open_alert_ts) now_ms cfg.repeat_alert_sec then
        ⟨mark_open_alert_sent s latest_pending.position_id now_ms,
          [Notification.openSignal latest_pending.position_id true],
          [{ ts_ms := now_ms, alert_type := "OPEN_SIGNAL_REPEAT",
             position_id := latest_pending.position_id, message := "open signal reminder",
             spread := snapshot.spread_open }]⟩
      else
        ⟨s, [], []⟩

/-- One iteration of the loop body of
`PositionManager.process_close_signals` (src/src/position_manager.py
lines 67-102). -/
def process_close_step (snapshot : MarketSnapshot) (cfg : RuntimeConfig) (now_ms : Int)
    (acc : TickResult) (position : PositionRecord) : TickResult :=
  match position.close_trigger with
  | none => acc
  | some _ =>
    if position.status = Status.openConfirmed ∧ is_close_signal snapshot position then
      match mark_close_signalled acc.store position.position_id now_ms with
      | (none, s') => { acc with store := s' }
      | (some updated, s') =>
        { store := s'
          notifications := acc.notifications ++ [Notification.closeSignal updated.position_id false]
          alerts := acc.alerts ++
            [{ ts_ms := now_ms, alert_type := "CLOSE_SIGNAL",
               position_id := position.position_id, message := "close signal triggered",
               spread := snapshot.spread_close }] }
    else if position.status = Status.closeSignalled ∧
        should_repeat position.last_close_alert_ts now_ms cfg.repeat_alert_sec then
      { store := mark_close_alert_sent acc.store position.position_id now_ms |>.2
        notifications := acc.notifications ++ [Notification.closeSignal position.position_id true]
        alerts := acc.alerts ++
          [{ ts_ms := now_ms, alert_type := "CLOSE_SIGNAL_REPEAT",
             position_id := position.position_id, message := "close signal reminder",
             spread := snapshot.spread_close }] }
    else
      acc

/-- Source `PositionManager.process_close_signals` (src/src/position_manager.py
line 65): the candidate list is read once at entry, then the loop body
runs over it against the evolving store. -/
def process_close_signals (s : Store) (snapshot : MarketSnapshot) (cfg : RuntimeConfig)
    (now_ms : Int) : TickResult :=
  let open_positions := list_positions s [Status.openConfirmed, Status.closeSignalled]
  open_positions.foldl (process_close_step snapshot cfg now_ms) ⟨s, [], []⟩

/-- Source `PositionManager.confirm_open` (src/src/position_manager.py line 104):
an omitted `position_id` resolves to the last element of the
`signal_ts`-sorted PENDING_CONFIRM list. -/
def confirm_open (s : Store) (chat_id : String) (entry_spread_actual close_buffer : ℚ)
    (now_ms : Int) (position_id : Option String) : Option PositionRecord × Store :=
  match position_id with
  | some target_id =>
    DynamoStorage.confirm_open s target_id entry_spread_actual close_buffer now_ms chat_id
  | none =>
    let pending := list_positions s [Status.openPendingConfirm]
    match pending.getLast? with
    | none => (none, s)
    | some target =>
      DynamoStorage.confirm_open s target.position_id entry_spread_actual close_buffer
        now_ms chat_id

/-- Source `PositionManager.confirm_close` (src/src/position_manager.py line
120): an omitted `position_id` requires exactly one candidate among
OPEN_CONFIRMED / CLOSE_SIGNALLED. -/
def confirm_close (s : Store) (chat_id : String) (close_spread_actual : ℚ)
    (now_ms : Int) (position_id : Option String) : Option PositionRecord × Store :=
  match position_id with
  | some target_id =>
    DynamoStorage.close_position s target_id close_spread_actual now_ms chat_id
  | none =>
    let candidates := list_positions s [Status.openConfirmed, Status.closeSignalled]
    if candidates.length ≠ 1 then
      (none, s)
    else
      match candidates.head? with
      | none => (none, s)
      | some target =>
        DynamoStorage.close_position s target.position_id close_spread_actual now_ms chat_id

end PositionManager

/-! ### src/src/config_store.py -/

/-- A value as the config table hands it back through `from_decimal`
(src/src/utils.py line 49): a number (Decimal becomes int or float), a
string, a list, or Python `None`. -/
inductive PyValue where
  | num (q : ℚ)
  | str (s : String)
  | list (vs : List PyValue)
  | pynone

/-- Digits-only string to a number (helper for the Python `int()` /
`float()` builtins on strings). -/
def parseNatDigits (s : String) : Option Nat :=
  if s.isEmpty then none
  else if s.toList.all Char.isDigit then
    some (s.toList.foldl (fun a c => a * 10 + (c.toNat - 48)) 0)
  else none

/-- An unsigned decimal literal `digits[.digits]` as a rational. -/
def parseUnsignedRat (s : String) : Option ℚ :=
  match s.splitOn "." with
  | [w] => (parseNatDigits w).map (fun n => (n : ℚ))
  | [w, f] =>
    match parseNatDigits w, parseNatDigits f with
    | some n, some m => some ((n : ℚ) + (m : ℚ) / (10 : ℚ) ^ f.length)
    | _, _ => none
  | _ => none

/-- Python's `float(x)` builtin as the config-store casters use it: a
number converts, a decimal-literal string (optional sign and fraction)
parses, everything else (`None`, lists, non-numeric strings) raises and
is modelled as `none`. -/
def pyFloat : PyValue → Option ℚ
  | PyValue.num q => some q
  | PyValue.str s =>
    let t := s.trim
    if t.startsWith "-" then (parseUnsignedRat (t.drop 1)).map Neg.neg
    else if t.startsWith "+" then parseUnsignedRat (t.drop 1)
    else parseUnsignedRat t
  | _ => none

/-- Truncation toward zero, as Python's `int()` on a float. -/
def truncToInt (q : ℚ) : Int :=
  if 0 ≤ q then ⌊q⌋ else ⌈q⌉

/-- Python's `int(x)` builtin as the config-store casters use it: a
number truncates toward zero, an integer-literal string parses, anything
else raises and is modelled as `none` (`int("40.5")` raises). -/
def pyInt : PyValue → Option Int
  | PyValue.num q => some (truncToInt q)
  | PyValue.str s =>
    let t := s.trim
    if t.startsWith "-" then (parseNatDigits (t.drop 1)).map (fun n => -(n : Int))
    else if t.startsWith "+" then (parseNatDigits (t.drop 1)).map (fun n => (n : Int))
    else (parseNatDigits t).map (fun n => (n : Int))
  | _ => none

/-- Python's `str(x)` as `_parse_chat_ids` uses it on list members and
scalars.  No claim depends on the rendering of non-string values; they
are given an unambiguous printable form. -/
def pyStr : PyValue → String
  | PyValue.str s => s
  | PyValue.num q => toString q
  | PyValue.pynone => "None"
  | PyValue.list _ => "[...]"

/-- Source `RuntimeConfigStore._parse_chat_ids` (src/src/config_store.py line
69); the Python set of strings is a deduplicated list here. -/
def parse_chat_ids : PyValue → List String
  | PyValue.pynone => []
  | PyValue.str s =>
    ((s.splitOn ",").map String.trim).filter (fun p => ¬ p.isEmpty) |>.dedup
  | PyValue.list vs =>
    (vs.map (fun v => (pyStr v).trim)).filter (fun p => ¬ p.isEmpty) |>.dedup
  | raw => if (pyStr raw).trim.isEmpty then [] else [(pyStr raw).trim]

/-- The stored override map (`load_config_map`, keyed by `config_key`). -/
abbrev OverrideMap := List (String × PyValue)

/-- Dictionary lookup in the override map. -/
def lookupKey (overrides : OverrideMap) (key : String) : Option PyValue :=
  (overrides.find? (fun kv => kv.fst == key)).map Prod.snd

namespace RuntimeConfigStore

/-- The `threshold_open` arm of `_merge_overrides`
(src/src/config_store.py lines 61-62): `float(float(raw))`, skipped on a
cast failure. -/
def apply_threshold_open (overrides : OverrideMap) (config : RuntimeConfig) : RuntimeConfig :=
  match lookupKey overrides "threshold_open" with
  | none => config
  | some raw =>
    match pyFloat raw with
    | some v => { config with threshold_open := v }
    | none => config

/-- The `close_buffer` arm (src/src/config_store.py lines 63-64). -/
def apply_close_buffer (overrides : OverrideMap) (config : RuntimeConfig) : RuntimeConfig :=
  match lookupKey overrides "close_buffer" with
  | none => config
  | some raw =>
    match pyFloat raw with
    | some v => { config with close_buffer := v }
    | none => config

/-- The `repeat_alert_sec` arm (src/src/config_store.py lines 57-58):
`max(30, int(int(raw)))`. -/
def apply_repeat_alert_sec (overrides : OverrideMap) (config : RuntimeConfig) : RuntimeConfig :=
  match lookupKey overrides "repeat_alert_sec" with
  | none => config
  | some raw =>
    match pyInt raw with
    | some v => { config with repeat_alert_sec := max 30 v }
    | none => config

/-- The `annual_factor` arm (src/src/config_store.py lines 59-60). -/
def apply_annual_factor (overrides : OverrideMap) (config : RuntimeConfig) : RuntimeConfig :=
  match lookupKey overrides "annual_factor" with
  | none => config
  | some raw =>
    match pyFloat raw with
    | some v => { config with annual_factor := v }
    | none => config

/-- The `poll_interval_sec` arm (src/src/config_store.py lines 55-56):
`max(0.5, float(float(raw)))`. -/
def apply_poll_interval_sec (overrides : OverrideMap) (config : RuntimeConfig) : RuntimeConfig :=
  match lookupKey overrides "poll_interval_sec" with
  | none => config
  | some raw =>
    match pyFloat raw with
    | some v => { config with poll_interval_sec := max (1 / 2 : ℚ) v }
    | none => config

/-- The `allowed_chat_ids` arm (src/src/config_store.py lines 52-54);
`_parse_chat_ids` is total, so this arm cannot fail. -/
def apply_allowed_chat_ids (overrides : OverrideMap) (config : RuntimeConfig) : RuntimeConfig :=
  match lookupKey overrides "allowed_chat_ids" with
  | none => config
  | some raw => { config with tg_allowed_chat_ids := parse_chat_ids raw }

/-- Source `RuntimeConfigStore._merge_overrides` (src/src/config_store.py line
45): start from a deep copy of the BASE config; for each recognized key
present in the override map, cast and clamp it, and on a cast failure
(`TypeError` / `ValueError`) skip the key, leaving the value the config
already had — each key touches only its own field, so the iteration
order of `DYNAMIC_KEYS` (kept here) is immaterial. -/
def merge_overrides (base : RuntimeConfig) (overrides : OverrideMap) : RuntimeConfig :=
  apply_allowed_chat_ids overrides
    (apply_poll_interval_sec overrides
      (apply_annual_factor overrides
        (apply_repeat_alert_sec overrides
          (apply_close_buffer overrides
            (apply_threshold_open overrides base)))))

/-- The mutable fields of `RuntimeConfigStore` (src/src/config_store.py
line 21). -/
structure State where
  base : RuntimeConfig
  current : RuntimeConfig
  last_refresh_ms : Int
deriving DecidableEq, Repr

/-- Source `RuntimeConfigStore.refresh` (src/src/config_store.py line 30); the
override map the storage gateway would return is a parameter. -/
def refresh (st : State) (overrides : OverrideMap) (now_ms : Int) :
    RuntimeConfig × State :=
  if now_ms - st.last_refresh_ms < st.current.config_refresh_sec * 1000 then
    (st.current, st)
  else
    let merged := merge_overrides st.base overrides
    (merged, { st with current := merged, last_refresh_ms := now_ms })

end RuntimeConfigStore

/-! ### The lifecycle operations as one step type (for stating that a
position's status never regresses across any operation sequence). -/

/-- One lifecycle write against the positions table: the four operations
named by the spec's state machine (create / confirmOpen /
markCloseSignalled / closePosition). -/
inductive LifeOp where
  | create (position_id : String) (signal_spread : ℚ) (signal_ts now_ms : Int)
  | confirmOpen (position_id : String) (entry_spread_actual close_buffer : ℚ)
      (now_ms : Int) (chat_id : String)
  | markCloseSignalled (position_id : String) (now_ms : Int)
  | closePosition (position_id : String) (close_spread_actual : ℚ) (now_ms : Int)
      (chat_id : String)
deriving DecidableEq, Repr

/-- The store reached after one lifecycle operation. -/
def applyOp (s : Store) : LifeOp → Store
  | LifeOp.create pid sp ts now => (DynamoStorage.create_pending_position s pid sp ts now).2
  | LifeOp.confirmOpen pid e b now chat => (DynamoStorage.confirm_open s pid e b now chat).2
  | LifeOp.markCloseSignalled pid now => (DynamoStorage.mark_close_signalled s pid now).2
  | LifeOp.closePosition pid c now chat => (DynamoStorage.close_position s pid c now chat).2

/-- The store reached after a sequence of lifecycle operations. -/
def applyOps (s : Store) (ops : List LifeOp) : Store :=
  ops.foldl applyOp s

/-- The id a `create` operation would insert under (uuid4 freshness makes
it distinct from every live id). -/
def LifeOp.createdId : LifeOp → Option String
  | LifeOp.create pid _ _ _ => some pid
  | _ => none

/-- Position of a status in the total order
PENDING_CONFIRM < OPEN_CONFIRMED < CLOSE_SIGNALLED < CLOSED. -/
def statusRank : Status → Nat
  | Status.openPendingConfirm => 0
  | Status.openConfirmed => 1
  | Status.closeSignalled => 2
  | Status.closed => 3

/-- The position a notification is about. -/
def Notification.pid : Notification → String
  | Notification.openSignal pid _ => pid
  | Notification.closeSignal pid _ => pid

/-! ### Concrete sample data (used by witnesses and counterexamples). -/

/-- A PENDING_CONFIRM position as `create_pending_position` writes it. -/
def demoPending1 : PositionRecord :=
  { position_id := "p1", status := Status.openPendingConfirm, created_at_ts := 1,
    updated_at_ts := 1, signal_spread := 41, signal_ts := 1, last_open_alert_ts := 1 }

/-- A one-position store holding `demoPending1`. -/
def demoStore1 : Store := [demoPending1]

/-- A second PENDING_CONFIRM position, signalled later than `demoPending1`. -/
def demoPending2 : PositionRecord :=
  { position_id := "p2", status := Status.openPendingConfirm, created_at_ts := 2,
    updated_at_ts := 2, signal_spread := 43, signal_ts := 2, last_open_alert_ts := 2 }

/-- A store with TWO outstanding PENDING_CONFIRM positions. -/
def demoTwoPending : Store := [demoPending1, demoPending2]

/-- An OPEN_CONFIRMED position. -/
def demoOpen1 : PositionRecord :=
  { position_id := "o1", status := Status.openConfirmed, created_at_ts := 1,
    updated_at_ts := 1, signal_spread := 41, signal_ts := 1, last_open_alert_ts := 1,
    entry_spread_actual := some 39, close_trigger := some (-39) }

/-- A second OPEN_CONFIRMED position. -/
def demoOpen2 : PositionRecord :=
  { position_id := "o2", status := Status.openConfirmed, created_at_ts := 2,
    updated_at_ts := 2, signal_spread := 42, signal_ts := 2, last_open_alert_ts := 2,
    entry_spread_actual := some 40, close_trigger := some (-40) }

/-- A store with two simultaneously open positions. -/
def demoTwoOpen : Store := [demoOpen1, demoOpen2]

/-- A CLOSE_SIGNALLED position whose close alert was stamped at 1000. -/
def demoCloseSig1 : PositionRecord :=
  { position_id := "c1", status := Status.closeSignalled, created_at_ts := 1,
    updated_at_ts := 1000, signal_spread := 41, signal_ts := 1, last_open_alert_ts := 1,
    entry_spread_actual := some 39, close_trigger := some (-39),
    close_signalled_ts := some 1000, last_close_alert_ts := some 1000 }

/-- A store holding only `demoCloseSig1`. -/
def demoCloseSigStore : Store := [demoCloseSig1]

/-- A market snapshot whose open spread (42) clears the demo threshold (40). -/
def demoSnap : MarketSnapshot :=
  { ts_ms := 1000, paxg_bid := 2300, paxg_ask := 2301, xaut_bid := 2299,
    xaut_ask := 2300, spread_open := 42, spread_close := -38 }

/-- The base runtime configuration of the demos (mirrors the documented
environment defaults). -/
def demoCfg : RuntimeConfig :=
  { poll_interval_sec := 2, threshold_open := 40, close_buffer := 0,
    repeat_alert_sec := 300, annual_factor := 365, config_refresh_sec := 30 }

/-- A config store that has never refreshed: both layers at the base. -/
def demoCfgState0 : RuntimeConfigStore.State :=
  { base := demoCfg, current := demoCfg, last_refresh_ms := 0 }

/-- A stored override map carrying a parseable threshold override. -/
def demoOverridesGood : OverrideMap := [("threshold_open", PyValue.num 50)]

/-- A stored override map whose threshold override fails `float()`
(Python `float(None)` raises `TypeError`, caught and skipped by
`_merge_overrides`). -/
def demoOverridesBad : OverrideMap := [("threshold_open", PyValue.pynone)]

/-! ### Helper lemmas about the table model -/

lemma getPos_id {s : Store} {pid : String} {p : PositionRecord}
    (h : getPos s pid = some p) : p.position_id = pid := by
  induction s with
  | nil => simp [getPos] at h
  | cons a t ih =>
    by_cases ha : a.position_id = pid
    · rw [getPos, if_pos ha] at h
      cases h
      exact ha
    · rw [getPos, if_neg ha] at h
      exact ih h

lemma getPos_mem {s : Store} {pid : String} {p : PositionRecord}
    (h : getPos s pid = some p) : p ∈ s := by
  induction s with
  | nil => simp [getPos] at h
  | cons a t ih =>
    by_cases ha : a.position_id = pid
    · rw [getPos, if_pos ha] at h
      cases h
      exact List.mem_cons_self _ _
    · rw [getPos, if_neg ha] at h
      exact List.mem_cons_of_mem a (ih h)

lemma getPos_updateById_self {s : Store} {pid : String} {p : PositionRecord}
    (p' : PositionRecord) (h : getPos s pid = some p) (hid : p'.position_id = pid) :
    getPos (updateById s pid p') pid = some p' := by
  induction s with
  | nil => simp [getPos] at h
  | cons a t ih =>
    by_cases ha : a.position_id = pid
    · simp [updateById, getPos, ha, hid]
    · rw [getPos, if_neg ha] at h
      simpa [updateById, getPos, ha] using ih h

lemma getPos_updateById_ne (s : Store) {pid pid' : String} (p' : PositionRecord)
    (hid : p'.position_id = pid) (hne : pid' ≠ pid) :
    getPos (updateById s pid p') pid' = getPos s pid' := by
  induction s with
  | nil => rfl
  | cons a t ih =>
    simp only [updateById, getPos]
    by_cases ha : a.position_id = pid
    · rw [if_pos ha]
      have h1 : p'.position_id ≠ pid' := by
        rw [hid]
        exact fun hx => hne hx.symm
      have h2 : a.position_id ≠ pid' := by
        rw [ha]
        exact fun hx => hne hx.symm
      rw [if_neg h1, if_neg h2]
      exact ih
    · rw [if_neg ha]
      by_cases hb : a.position_id = pid'
      · rw [if_pos hb, if_pos hb]
      · rw [if_neg hb, if_neg hb]
        exact ih

lemma getPos_append_right {s : Store} (t : Store) {pid : String} {p : PositionRecord}
    (h : getPos s pid = some p) : getPos (s ++ t) pid = some p := by
  induction s with
  | nil => simp [getPos] at h
  | cons a u ih =>
    by_cases ha : a.position_id = pid
    · rw [getPos, if_pos ha] at h
      simp [getPos, ha, h]
    · rw [getPos, if_neg ha] at h
      simpa [getPos, ha] using ih h

lemma getPos_append_single_ne (s : Store) {p : PositionRecord} {pid : String}
    (hne : p.position_id ≠ pid) :
    getPos (s ++ [p]) pid = getPos s pid := by
  induction s with
  | nil => simp [getPos, hne]
  | cons a t ih =>
    simp only [List.cons_append, getPos]
    by_cases ha : a.position_id = pid
    · rw [if_pos ha, if_pos ha]
    · rw [if_neg ha, if_neg ha]
      exact ih

lemma getPos_put_item_ne (s : Store) {p : PositionRecord} {pid : String}
    (hne : p.position_id ≠ pid) :
    getPos (put_item s p) pid = getPos s pid := by
  unfold put_item
  split
  · exact getPos_updateById_ne s p rfl (fun hx => hne hx.symm)
  · exact getPos_append_single_ne s hne

lemma getPos_eq_of_mem {s : Store} {q : PositionRecord}
    (hu : UniqueIds s) (hq : q ∈ s) : getPos s q.position_id = some q := by
  induction s with
  | nil => simp at hq
  | cons a t ih =>
    have hu2 : a.position_id ∉ t.map PositionRecord.position_id ∧ UniqueIds t := by
      simpa [UniqueIds] using hu
    rcases List.mem_cons.mp hq with rfl | hmem
    · simp [getPos]
    · have hane : a.position_id ≠ q.position_id := by
        intro hx
        exact hu2.1 (hx ▸ List.mem_map_of_mem PositionRecord.position_id hmem)
      simpa [getPos, hane] using ih hu2.2 hmem

lemma updateById_length (s : Store) (pid : String) (p' : PositionRecord) :
    (updateById s pid p').length = s.length := by
  induction s with
  | nil => rfl
  | cons a t ih => simp [updateById, ih]

/-! ### Success and failure shapes of the storage CAS operations -/

lemma confirm_open_success {s : Store} {pid : String} {p : PositionRecord}
    (hp : getPos s pid = some p) (hst : p.status = Status.openPendingConfirm)
    (e b : ℚ) (now : Int) (chat : String) :
    DynamoStorage.confirm_open s pid e b now chat =
      (some (DynamoStorage.confirmOpenUpdate p e b now chat),
        updateById s pid (DynamoStorage.confirmOpenUpdate p e b now chat)) := by
  unfold DynamoStorage.confirm_open
  rw [hp]
  simp [hst]

lemma confirm_open_fail {s : Store} {pid : String} (e b : ℚ) (now : Int) (chat : String)
    (h : ∀ q, getPos s pid = some q → q.status ≠ Status.openPendingConfirm) :
    DynamoStorage.confirm_open s pid e b now chat = (none, s) := by
  unfold DynamoStorage.confirm_open
  cases hq : getPos s pid with
  | none => rfl
  | some q => simp [h q hq]

lemma confirm_open_fst_none_iff (s : Store) (pid : String) (e b : ℚ) (now : Int)
    (chat : String) :
    (DynamoStorage.confirm_open s pid e b now chat).1 = none ↔
      ∀ q, getPos s pid = some q → q.status ≠ Status.openPendingConfirm := by
  constructor
  · intro h q hq hst
    rw [confirm_open_success hq hst e b now chat] at h
    cases h
  · intro h
    rw [confirm_open_fail e b now chat h]

lemma confirm_open_none_frame {s : Store} {pid : String} {e b : ℚ} {now : Int}
    {chat : String} (h : (DynamoStorage.confirm_open s pid e b now chat).1 = none) :
    (DynamoStorage.confirm_open s pid e b now chat).2 = s := by
  rw [confirm_open_fail e b now chat ((confirm_open_fst_none_iff s pid e b now chat).mp h)]

lemma mark_close_signalled_success {s : Store} {pid : String} {p : PositionRecord}
    (hp : getPos s pid = some p) (hst : p.status = Status.openConfirmed) (now : Int) :
    DynamoStorage.mark_close_signalled s pid now =
      (some (DynamoStorage.closeSignalledUpdate p now),
        updateById s pid (DynamoStorage.closeSignalledUpdate p now)) := by
  unfold DynamoStorage.mark_close_signalled
  rw [hp]
  simp [hst]

lemma mark_close_signalled_fail {s : Store} {pid : String} (now : Int)
    (h : ∀ q, getPos s pid = some q → q.status ≠ Status.openConfirmed) :
    DynamoStorage.mark_close_signalled s pid now = (none, s) := by
  unfold DynamoStorage.mark_close_signalled
  cases hq : getPos s pid with
  | none => rfl
  | some q => simp [h q hq]

lemma mark_close_signalled_fst_none_iff (s : Store) (pid : String) (now : Int) :
    (DynamoStorage.mark_close_signalled s pid now).1 = none ↔
      ∀ q, getPos s pid = some q → q.status ≠ Status.openConfirmed := by
  constructor
  · intro h q hq hst
    rw [mark_close_signalled_success hq hst now] at h
    cases h
  · intro h
    rw [mark_close_signalled_fail now h]

lemma mark_close_signalled_none_frame {s : Store} {pid : String} {now : Int}
    (h : (DynamoStorage.mark_close_signalled s pid now).1 = none) :
    (DynamoStorage.mark_close_signalled s pid now).2 = s := by
  rw [mark_close_signalled_fail now ((mark_close_signalled_fst_none_iff s pid now).mp h)]

lemma close_position_success {s : Store} {pid : String} {p : PositionRecord}
    (hp : getPos s pid = some p)
    (hst : p.status = Status.openConfirmed ∨ p.status = Status.closeSignalled)
    (c : ℚ) (now : Int) (chat : String) :
    DynamoStorage.close_position s pid c now chat =
      (some (DynamoStorage.closeUpdate p c now chat),
        updateById s pid (DynamoStorage.closeUpdate p c now chat)) := by
  unfold DynamoStorage.close_position
  rw [hp]
  simp [hst]

lemma close_position_fail {s : Store} {pid : String} (c : ℚ) (now : Int) (chat : String)
    (h : ∀ q, getPos s pid = some q →
      ¬(q.status = Status.openConfirmed ∨ q.status = Status.closeSignalled)) :
    DynamoStorage.close_position s pid c now chat = (none, s) := by
  unfold DynamoStorage.close_position
  cases hq : getPos s pid with
  | none => rfl
  | some q => simp [h q hq]

lemma close_position_fst_none_iff (s : Store) (pid : String) (c : ℚ) (now : Int)
    (chat : String) :
    (DynamoStorage.close_position s pid c now chat).1 = none ↔
      ∀ q, getPos s pid = some q →
        ¬(q.status = Status.openConfirmed ∨ q.status = Status.closeSignalled) := by
  constructor
  · intro h q hq hst
    rw [close_position_success hq hst c now chat] at h
    cases h
  · intro h
    rw [close_position_fail c now chat h]

lemma close_position_none_frame {s : Store} {pid : String} {c : ℚ} {now : Int}
    {chat : String} (h : (DynamoStorage.close_position s pid c now chat).1 = none) :
    (DynamoStorage.close_position s pid c now chat).2 = s := by
  rw [close_position_fail c now chat ((close_position_fst_none_iff s pid c now chat).mp h)]

/-! ### Status-rank monotonicity of the lifecycle operations (C2) -/

lemma statusRank_le_three (st : Status) : statusRank st ≤ 3 := by
  cases st <;> simp [statusRank]

lemma applyOp_mono {s : Store} {lop : LifeOp} {pid : String} {p : PositionRecord}
    (hfresh : lop.createdId ≠ some pid) (hp : getPos s pid = some p) :
    ∃ p', getPos (applyOp s lop) pid = some p' ∧
      statusRank p.status ≤ statusRank p'.status := by
  cases lop with
  | create pid2 sp ts now =>
    have hne : pid2 ≠ pid := fun h => hfresh (by simp [LifeOp.createdId, h])
    refine ⟨p, ?_, le_refl _⟩
    show getPos (put_item s _) pid = some p
    rw [getPos_put_item_ne s hne]
    exact hp
  | confirmOpen pid2 e b now chat =>
    by_cases hps : ∃ q, getPos s pid2 = some q ∧ q.status = Status.openPendingConfirm
    · obtain ⟨q, hq, hst⟩ := hps
      have hstore : applyOp s (LifeOp.confirmOpen pid2 e b now chat) =
          updateById s pid2 (DynamoStorage.confirmOpenUpdate q e b now chat) := by
        show (DynamoStorage.confirm_open s pid2 e b now chat).2 = _
        rw [confirm_open_success hq hst e b now chat]
      rw [hstore]
      by_cases hpp : pid2 = pid
      · subst hpp
        have hqp : q = p := Option.some.inj (hq ▸ hp)
        subst hqp
        refine ⟨_, getPos_updateById_self _ hp
          (by simp [DynamoStorage.confirmOpenUpdate, getPos_id hq]), ?_⟩
        rw [hst]
        simp [DynamoStorage.confirmOpenUpdate, statusRank]
      · refine ⟨p, ?_, le_refl _⟩
        rw [getPos_updateById_ne s _ (by simp [DynamoStorage.confirmOpenUpdate, getPos_id hq])
          (fun hx => hpp hx.symm)]
        exact hp
    · push_neg at hps
      refine ⟨p, ?_, le_refl _⟩
      show getPos (DynamoStorage.confirm_open s pid2 e b now chat).2 pid = some p
      rw [confirm_open_fail e b now chat (fun q hq hs => (hps q hq) hs)]
      exact hp
  | markCloseSignalled pid2 now =>
    by_cases hps : ∃ q, getPos s pid2 = some q ∧ q.status = Status.openConfirmed
    · obtain ⟨q, hq, hst⟩ := hps
      have hstore : applyOp s (LifeOp.markCloseSignalled pid2 now) =
          updateById s pid2 (DynamoStorage.closeSignalledUpdate q now) := by
        show (DynamoStorage.mark_close_signalled s pid2 now).2 = _
        rw [mark_close_signalled_success hq hst now]
      rw [hstore]
      by_cases hpp : pid2 = pid
      · subst hpp
        have hqp : q = p := Option.some.inj (hq ▸ hp)
        subst hqp
        refine ⟨_, getPos_updateById_self _ hp
          (by simp [DynamoStorage.closeSignalledUpdate, getPos_id hq]), ?_⟩
        rw [hst]
        simp [DynamoStorage.closeSignalledUpdate, statusRank]
      · refine ⟨p, ?_, le_refl _⟩
        rw [getPos_updateById_ne s _ (by simp [DynamoStorage.closeSignalledUpdate, getPos_id hq])
          (fun hx => hpp hx.symm)]
        exact hp
    · push_neg at hps
      refine ⟨p, ?_, le_refl _⟩
      show getPos (DynamoStorage.mark_close_signalled s pid2 now).2 pid = some p
      rw [mark_close_signalled_fail now (fun q hq hs => (hps q hq) hs)]
      exact hp
  | closePosition pid2 c now chat =>
    by_cases hps : ∃ q, getPos s pid2 = some q ∧
        (q.status = Status.openConfirmed ∨ q.status = Status.closeSignalled)
    · obtain ⟨q, hq, hst⟩ := hps
      have hstore : applyOp s (LifeOp.closePosition pid2 c now chat) =
          updateById s pid2 (DynamoStorage.closeUpdate q c now chat) := by
        show (DynamoStorage.close_position s pid2 c now chat).2 = _
        rw [close_position_success hq hst c now chat]
      rw [hstore]
      by_cases hpp : pid2 = pid
      · subst hpp
        have hqp : q = p := Option.some.inj (hq ▸ hp)
        subst hqp
        refine ⟨_, getPos_updateById_self _ hp
          (by simp [DynamoStorage.closeUpdate, getPos_id hq]), ?_⟩
        exact le_trans (statusRank_le_three q.status)
          (by simp [DynamoStorage.closeUpdate, statusRank])
      · refine ⟨p, ?_, le_refl _⟩
        rw [getPos_updateById_ne s _ (by simp [DynamoStorage.closeUpdate, getPos_id hq])
          (fun hx => hpp hx.symm)]
        exact hp
    · push_neg at hps
      refine ⟨p, ?_, le_refl _⟩
      show getPos (DynamoStorage.close_position s pid2 c now chat).2 pid = some p
      rw [close_position_fail c now chat
        (fun q hq h => by rcases h with h | h
                          exacts [(hps q hq).1 h, (hps q hq).2 h])]
      exact hp

/-! ### Lemmas about `list_positions` -/

lemma list_positions_sorted (s : Store) (sts : List Status) :
    (DynamoStorage.list_positions s sts).Pairwise
      (fun a b => a.signal_ts ≤ b.signal_ts) := by
  unfold DynamoStorage.list_positions
  refine List.Pairwise.imp ?_ (List.sorted_mergeSort ?_ ?_ _)
  · intro a b h
    exact of_decide_eq_true h
  · intro a b c h1 h2
    exact decide_eq_true (le_trans (of_decide_eq_true h1) (of_decide_eq_true h2))
  · intro a b
    rcases le_total a.signal_ts b.signal_ts with h | h
    · simp [h]
    · simp [h]

lemma mem_list_positions {s : Store} {sts : List Status} {p : PositionRecord}
    (hne : ¬ sts.isEmpty) (h : p ∈ DynamoStorage.list_positions s sts) :
    p ∈ s ∧ p.status ∈ sts := by
  simp only [DynamoStorage.list_positions] at h
  rw [if_neg (by simpa using hne)] at h
  have h2 := List.mem_mergeSort.mp h
  refine ⟨(List.mem_filter.mp h2).1, ?_⟩
  have := (List.mem_filter.mp h2).2
  simpa using this

lemma pairwise_le_getLast {l : List PositionRecord} {q : PositionRecord}
    (hs : l.Pairwise (fun a b => a.signal_ts ≤ b.signal_ts))
    (hq : l.getLast? = some q) : ∀ r ∈ l, r.signal_ts ≤ q.signal_ts := by
  induction l with
  | nil => cases hq
  | cons a t ih =>
    cases t with
    | nil =>
      have haq : a = q := by simpa using hq
      subst haq
      intro r hr
      have : r = a := by simpa using hr
      subst this
      exact le_refl _
    | cons b u =>
      have hq' : (b :: u).getLast? = some q := by
        simpa [List.getLast?_cons_cons] using hq
      have hpair := List.pairwise_cons.mp hs
      have hqmem : q ∈ b :: u := List.mem_of_mem_getLast? (by simp [hq'])
      intro r hr
      rcases List.mem_cons.mp hr with rfl | hrt
      · exact hpair.1 q hqmem
      · exact ih hpair.2 hq' r hrt

lemma getLast_mem_list_positions {s : Store} {sts : List Status} {q : PositionRecord}
    (hne : ¬ sts.isEmpty)
    (hq : (DynamoStorage.list_positions s sts).getLast? = some q) :
    q ∈ s ∧ q.status ∈ sts :=
  mem_list_positions hne (List.mem_of_mem_getLast? (by simp [hq]))

/-! ### Small lemmas about `put_item` and the alert stamps -/

lemma put_item_append {s : Store} {p : PositionRecord}
    (h : ∀ q ∈ s, q.position_id ≠ p.position_id) : put_item s p = s ++ [p] := by
  unfold put_item
  rw [if_neg]
  intro hx
  rcases List.any_eq_true.mp hx with ⟨q, hqmem, hqid⟩
  exact h q hqmem (by simpa using hqid)

lemma mark_open_alert_sent_getPos {s : Store} {q : PositionRecord} (now : Int)
    (hu : UniqueIds s) (hq : q ∈ s) :
    getPos (DynamoStorage.mark_open_alert_sent s q.position_id now) q.position_id =
      some { q with last_open_alert_ts := now, updated_at_ts := now } := by
  unfold DynamoStorage.mark_open_alert_sent
  rw [getPos_eq_of_mem hu hq]
  exact getPos_updateById_self _ (getPos_eq_of_mem hu hq) rfl

lemma mark_open_alert_sent_length (s : Store) (pid : String) (now : Int) :
    (DynamoStorage.mark_open_alert_sent s pid now).length = s.length := by
  unfold DynamoStorage.mark_open_alert_sent
  cases getPos s pid with
  | none => rfl
  | some p => exact updateById_length s pid _

lemma applyOps_mono {ops : List LifeOp} {s : Store} {pid : String} {p : PositionRecord}
    (hfresh : ∀ lop ∈ ops, lop.createdId ≠ some pid)
    (hp : getPos s pid = some p) :
    ∃ p', getPos (applyOps s ops) pid = some p' ∧
      statusRank p.status ≤ statusRank p'.status := by
  induction ops generalizing s p with
  | nil => exact ⟨p, hp, le_refl _⟩
  | cons lop rest ih =>
    obtain ⟨p1, hp1, hr1⟩ :=
      applyOp_mono (hfresh lop (List.mem_cons_self _ _)) hp
    obtain ⟨p2, hp2, hr2⟩ :=
      ih (fun o ho => hfresh o (List.mem_cons_of_mem _ ho)) hp1
    exact ⟨p2, hp2, le_trans hr1 hr2⟩

/-- Evaluation principle for `list_positions` on concrete stores: if the
filtered list is already sorted, the (stable) sort returns it unchanged. -/
lemma list_positions_eval {s : Store} {sts : List Status} {l : List PositionRecord}
    (hfil : (if sts.isEmpty then s else s.filter (fun p => sts.contains p.status)) = l)
    (hsor : l.Pairwise (fun a b => a.signal_ts ≤ b.signal_ts)) :
    DynamoStorage.list_positions s sts = l := by
  simp only [DynamoStorage.list_positions]
  rw [hfil]
  exact List.mergeSort_of_sorted (List.Pairwise.imp (fun h => decide_eq_true h) hsor)

/-! ## The claims -/

/-- C7: `should_repeat` is true iff the last-alert timestamp is unset or
at least `repeat_alert_sec` seconds (timestamps are in milliseconds, so
`repeat_alert_sec * 1000`) have elapsed since it, boundary inclusive; in
particular the three documented instances hold. -/
theorem should_repeat_spec :
    (∀ (last_alert_ts : Option Int) (now_ms repeat_alert_sec : Int),
      should_repeat last_alert_ts now_ms repeat_alert_sec = true ↔
        (last_alert_ts = none ∨
          ∃ t, last_alert_ts = some t ∧ now_ms - t ≥ repeat_alert_sec * 1000)) ∧
    (∀ now : Int, should_repeat none now 300 = true) ∧
    (∀ now : Int, should_repeat (some (now - 299000)) now 300 = false) ∧
    (∀ now : Int, should_repeat (some (now - 300000)) now 300 = true) := by
  refine ⟨?_, ?_, ?_, ?_⟩
  · intro last now rep
    cases last with
    | none => simp [should_repeat]
    | some t => simp [should_repeat]
  · intro now
    rfl
  · intro now
    simp [should_repeat]
  · intro now
    simp [should_repeat]

/-- C8: `is_open_signal` is true exactly when the snapshot's open spread
reaches the threshold, equality included. -/
theorem is_open_signal_iff (snapshot : MarketSnapshot) (threshold_open : ℚ) :
    is_open_signal snapshot threshold_open = true ↔
      snapshot.spread_open ≥ threshold_open := by
  simp [is_open_signal]

/-- C9: `close_trigger` is `−entry_spread_actual + close_buffer` (with the
two documented instances), and a successful storage `confirm_open`
persists exactly `close_trigger entry_spread_actual close_buffer` on the
returned record. -/
theorem close_trigger_spec :
    (∀ entry_spread_actual close_buffer : ℚ,
      close_trigger entry_spread_actual close_buffer =
        -entry_spread_actual + close_buffer) ∧
    close_trigger 39 0 = -39 ∧
    close_trigger 39 2 = -37 ∧
    (∀ (s : Store) (pid : String) (e b : ℚ) (now : Int) (chat : String)
        (r : PositionRecord) (s' : Store),
      DynamoStorage.confirm_open s pid e b now chat = (some r, s') →
      r.close_trigger = some (close_trigger e b)) := by
  refine ⟨fun _ _ => rfl, by norm_num [close_trigger], by norm_num [close_trigger], ?_⟩
  intro s pid e b now chat r s' h
  by_cases hps : ∃ q, getPos s pid = some q ∧ q.status = Status.openPendingConfirm
  · obtain ⟨q, hq, hst⟩ := hps
    rw [confirm_open_success hq hst e b now chat] at h
    have : r = DynamoStorage.confirmOpenUpdate q e b now chat :=
      (Option.some.inj (congrArg Prod.fst h)).symm
    rw [this]
    rfl
  · push_neg at hps
    rw [confirm_open_fail e b now chat (fun q hq hs => (hps q hq) hs)] at h
    cases congrArg Prod.fst h

/-- C9 witness: on the one-pending demo store, `confirm_open` succeeds and
the persisted close trigger is `close_trigger 39 0 = −39`. -/
theorem close_trigger_spec_witness :
    DynamoStorage.confirm_open demoStore1 "p1" 39 0 5 "chat" =
      (some (DynamoStorage.confirmOpenUpdate demoPending1 39 0 5 "chat"),
        updateById demoStore1 "p1" (DynamoStorage.confirmOpenUpdate demoPending1 39 0 5 "chat")) ∧
    (DynamoStorage.confirmOpenUpdate demoPending1 39 0 5 "chat").close_trigger =
      some (close_trigger 39 0) :=
  ⟨confirm_open_success (show getPos demoStore1 "p1" = some demoPending1 from rfl) rfl 39 0 5 "chat",
    close_trigger_spec.2.2.2 demoStore1 "p1" 39 0 5 "chat"
      (DynamoStorage.confirmOpenUpdate demoPending1 39 0 5 "chat")
      (updateById demoStore1 "p1" (DynamoStorage.confirmOpenUpdate demoPending1 39 0 5 "chat"))
      (confirm_open_success (show getPos demoStore1 "p1" = some demoPending1 from rfl) rfl 39 0 5 "chat")⟩

/-- C1: against a store holding position `pid` in PENDING_CONFIRM, of two
`confirm_open` CAS calls on `pid` run one after the other (with arbitrary
arguments, hence in either order), the first returns the updated record,
the second returns `None` and writes nothing, and the final status of
`pid` is OPEN_CONFIRMED — reached exactly once, by the first call. -/
theorem confirm_open_cas_exactly_one
    (s : Store) (pid : String) (p : PositionRecord)
    (e1 b1 : ℚ) (n1 : Int) (c1 : String) (e2 b2 : ℚ) (n2 : Int) (c2 : String)
    (hp : getPos s pid = some p) (hstat : p.status = Status.openPendingConfirm) :
    (DynamoStorage.confirm_open s pid e1 b1 n1 c1).1 =
      some (DynamoStorage.confirmOpenUpdate p e1 b1 n1 c1) ∧
    (DynamoStorage.confirmOpenUpdate p e1 b1 n1 c1).status = Status.openConfirmed ∧
    (DynamoStorage.confirm_open (DynamoStorage.confirm_open s pid e1 b1 n1 c1).2
        pid e2 b2 n2 c2).1 = none ∧
    (DynamoStorage.confirm_open (DynamoStorage.confirm_open s pid e1 b1 n1 c1).2
        pid e2 b2 n2 c2).2 = (DynamoStorage.confirm_open s pid e1 b1 n1 c1).2 ∧
    getPos (DynamoStorage.confirm_open s pid e1 b1 n1 c1).2 pid =
      some (DynamoStorage.confirmOpenUpdate p e1 b1 n1 c1) := by
  have h1 := confirm_open_success hp hstat e1 b1 n1 c1
  have hid : (DynamoStorage.confirmOpenUpdate p e1 b1 n1 c1).position_id = pid := by
    simp [DynamoStorage.confirmOpenUpdate, getPos_id hp]
  have hget : getPos (DynamoStorage.confirm_open s pid e1 b1 n1 c1).2 pid =
      some (DynamoStorage.confirmOpenUpdate p e1 b1 n1 c1) := by
    rw [h1]
    exact getPos_updateById_self _ hp hid
  have hfail : DynamoStorage.confirm_open (DynamoStorage.confirm_open s pid e1 b1 n1 c1).2
      pid e2 b2 n2 c2 = (none, (DynamoStorage.confirm_open s pid e1 b1 n1 c1).2) := by
    apply confirm_open_fail
    intro q hq
    have hqe : q = DynamoStorage.confirmOpenUpdate p e1 b1 n1 c1 :=
      Option.some.inj (hq.symm.trans hget)
    rw [hqe]
    simp [DynamoStorage.confirmOpenUpdate]
  refine ⟨by rw [h1], rfl, ?_, ?_, hget⟩
  · rw [hfail]
  · rw [hfail]

/-- C1 witness: the race on the concrete one-pending store. -/
theorem confirm_open_cas_exactly_one_witness :
    getPos demoStore1 "p1" = some demoPending1 ∧
    demoPending1.status = Status.openPendingConfirm ∧
    (DynamoStorage.confirm_open demoStore1 "p1" 39 0 5 "alice").1 =
      some (DynamoStorage.confirmOpenUpdate demoPending1 39 0 5 "alice") ∧
    (DynamoStorage.confirm_open (DynamoStorage.confirm_open demoStore1 "p1" 39 0 5 "alice").2
        "p1" 40 1 6 "bob").1 = none :=
  ⟨rfl, rfl,
    (confirm_open_cas_exactly_one demoStore1 "p1" demoPending1 39 0 5 "alice" 40 1 6 "bob"
      rfl rfl).1,
    (confirm_open_cas_exactly_one demoStore1 "p1" demoPending1 39 0 5 "alice" 40 1 6 "bob"
      rfl rfl).2.2.1⟩

/-- C5: `confirm_close` with an omitted position id is a no-match unless
there is exactly one candidate among OPEN_CONFIRMED / CLOSE_SIGNALLED:
with zero or several candidates it returns `None` and leaves the store
unchanged, whatever close spread was supplied. -/
theorem confirm_close_requires_unique_candidate
    (s : Store) (chat_id : String) (close_spread_actual : ℚ) (now_ms : Int)
    (h : (DynamoStorage.list_positions s
      [Status.openConfirmed, Status.closeSignalled]).length ≠ 1) :
    PositionManager.confirm_close s chat_id close_spread_actual now_ms none = (none, s) := by
  simp [PositionManager.confirm_close, h]

/-- C5 witness: with two simultaneously open positions and no explicit
id, `confirm_close` is a no-match. -/
theorem confirm_close_requires_unique_candidate_witness :
    (DynamoStorage.list_positions demoTwoOpen
      [Status.openConfirmed, Status.closeSignalled]).length ≠ 1 ∧
    PositionManager.confirm_close demoTwoOpen "chat" (-38) 99 none = (none, demoTwoOpen) := by
  have hlp : DynamoStorage.list_positions demoTwoOpen
      [Status.openConfirmed, Status.closeSignalled] = [demoOpen1, demoOpen2] :=
    list_positions_eval (by decide) (by decide)
  have hlen : (DynamoStorage.list_positions demoTwoOpen
      [Status.openConfirmed, Status.closeSignalled]).length ≠ 1 := by
    rw [hlp]
    decide
  exact ⟨hlen, confirm_close_requires_unique_candidate demoTwoOpen "chat" (-38) 99 hlen⟩

/-- C3 counterexample: with TWO outstanding PENDING_CONFIRM positions and
no explicit id, the claim says `confirm_open` is an ambiguous no-match
returning `None`; the code instead picks the latest pending position and
succeeds. -/
theorem manager_confirm_open_ambiguous_succeeds :
    (PositionManager.confirm_open demoTwoPending "chat" 39 0 100 none).1 ≠ none := by
  have hlp : DynamoStorage.list_positions demoTwoPending [Status.openPendingConfirm] =
      [demoPending1, demoPending2] := list_positions_eval (by decide) (by decide)
  simp only [PositionManager.confirm_open]
  rw [hlp]
  show (DynamoStorage.confirm_open demoTwoPending demoPending2.position_id
    39 0 100 "chat").1 ≠ none
  rw [confirm_open_success
    (show getPos demoTwoPending demoPending2.position_id = some demoPending2 from rfl)
    rfl 39 0 100 "chat"]
  simp

/-- C3 (amended): `confirm_open` with an omitted position id yields
no-match (None, no state change) when no PENDING_CONFIRM position exists;
when one or more exist, it is NOT an ambiguous no-match — it targets the
latest outstanding PENDING_CONFIRM position (the last of the
`signal_ts`-sorted pending list, maximal in `signal_ts`) and confirms it,
returning the updated record. -/
theorem manager_confirm_open_latest_pending
    (s : Store) (chat_id : String) (e b : ℚ) (now : Int) (hu : UniqueIds s) :
    (DynamoStorage.list_positions s [Status.openPendingConfirm] = [] →
      PositionManager.confirm_open s chat_id e b now none = (none, s)) ∧
    (∀ q, (DynamoStorage.list_positions s [Status.openPendingConfirm]).getLast? = some q →
      (∀ r ∈ DynamoStorage.list_positions s [Status.openPendingConfirm],
        r.signal_ts ≤ q.signal_ts) ∧
      PositionManager.confirm_open s chat_id e b now none =
        (some (DynamoStorage.confirmOpenUpdate q e b now chat_id),
          updateById s q.position_id (DynamoStorage.confirmOpenUpdate q e b now chat_id)) ∧
      (DynamoStorage.confirmOpenUpdate q e b now chat_id).status = Status.openConfirmed) := by
  constructor
  · intro hnil
    simp only [PositionManager.confirm_open]
    rw [hnil]
    rfl
  · intro q hq
    have hmem := getLast_mem_list_positions (by decide) hq
    have hst : q.status = Status.openPendingConfirm := by
      have := hmem.2
      simpa using this
    have hgp : getPos s q.position_id = some q := getPos_eq_of_mem hu hmem.1
    refine ⟨pairwise_le_getLast (list_positions_sorted s _) hq, ?_, rfl⟩
    simp only [PositionManager.confirm_open]
    rw [hq]
    exact confirm_open_success hgp hst e b now chat_id

/-- C3 witness: on the two-pending store, the resolver targets the later
pending position (`p2`) and confirms it. -/
theorem manager_confirm_open_latest_pending_witness :
    UniqueIds demoTwoPending ∧
    (DynamoStorage.list_positions demoTwoPending [Status.openPendingConfirm]).getLast? =
      some demoPending2 ∧
    PositionManager.confirm_open demoTwoPending "chat" 39 0 100 none =
      (some (DynamoStorage.confirmOpenUpdate demoPending2 39 0 100 "chat"),
        updateById demoTwoPending demoPending2.position_id
          (DynamoStorage.confirmOpenUpdate demoPending2 39 0 100 "chat")) := by
  have hu : UniqueIds demoTwoPending := by
    unfold UniqueIds
    decide
  have hlp : DynamoStorage.list_positions demoTwoPending [Status.openPendingConfirm] =
      [demoPending1, demoPending2] := list_positions_eval (by decide) (by decide)
  have hq : (DynamoStorage.list_positions demoTwoPending
      [Status.openPendingConfirm]).getLast? = some demoPending2 := by
    rw [hlp]
    rfl
  exact ⟨hu, hq,
    ((manager_confirm_open_latest_pending demoTwoPending "chat" 39 0 100 hu).2
      demoPending2 hq).2.1⟩

/-- C6: one `process_open_signals` tick sends at most one notification;
with no open signal it does nothing; with a signal and no pending
position it creates exactly one position (capturing the snapshot's open
spread and timestamp, alert stamp at `now_ms`) and notifies once; with a
pending position it does nothing while `should_repeat` is false, and once
it is true sends exactly one reminder, creates nothing, and advances the
pending position's open-alert stamp to `now_ms`. -/
theorem process_open_signals_spec
    (s : Store) (snapshot : MarketSnapshot) (cfg : RuntimeConfig) (now_ms : Int)
    (fresh_id : String) :
    (PositionManager.process_open_signals s snapshot cfg now_ms fresh_id).notifications.length ≤ 1 ∧
    (is_open_signal snapshot cfg.threshold_open = false →
      PositionManager.process_open_signals s snapshot cfg now_ms fresh_id = ⟨s, [], []⟩) ∧
    (is_open_signal snapshot cfg.threshold_open = true →
      DynamoStorage.list_positions s [Status.openPendingConfirm] = [] →
      (∀ p ∈ s, p.position_id ≠ fresh_id) →
      PositionManager.process_open_signals s snapshot cfg now_ms fresh_id =
        ⟨s ++ [(DynamoStorage.create_pending_position s fresh_id snapshot.spread_open
            snapshot.ts_ms now_ms).1],
          [Notification.openSignal fresh_id false],
          [{ ts_ms := now_ms, alert_type := "OPEN_SIGNAL", position_id := fresh_id,
             message := "open signal created", spread := snapshot.spread_open }]⟩ ∧
      (DynamoStorage.create_pending_position s fresh_id snapshot.spread_open
          snapshot.ts_ms now_ms).1.signal_spread = snapshot.spread_open ∧
      (DynamoStorage.create_pending_position s fresh_id snapshot.spread_open
          snapshot.ts_ms now_ms).1.signal_ts = snapshot.ts_ms ∧
      (DynamoStorage.create_pending_position s fresh_id snapshot.spread_open
          snapshot.ts_ms now_ms).1.status = Status.openPendingConfirm ∧
      (DynamoStorage.create_pending_position s fresh_id snapshot.spread_open
          snapshot.ts_ms now_ms).1.last_open_alert_ts = now_ms) ∧
    (∀ q, is_open_signal snapshot cfg.threshold_open = true →
      (DynamoStorage.list_positions s [Status.openPendingConfirm]).getLast? = some q →
      should_repeat (some q.last_open_alert_ts) now_ms cfg.repeat_alert_sec = false →
      PositionManager.process_open_signals s snapshot cfg now_ms fresh_id = ⟨s, [], []⟩) ∧
    (∀ q, is_open_signal snapshot cfg.threshold_open = true →
      (DynamoStorage.list_positions s [Status.openPendingConfirm]).getLast? = some q →
      should_repeat (some q.last_open_alert_ts) now_ms cfg.repeat_alert_sec = true →
      UniqueIds s →
      (PositionManager.process_open_signals s snapshot cfg now_ms fresh_id).notifications =
        [Notification.openSignal q.position_id true] ∧
      (PositionManager.process_open_signals s snapshot cfg now_ms fresh_id).store.length =
        s.length ∧
      getPos (PositionManager.process_open_signals s snapshot cfg now_ms fresh_id).store
          q.position_id =
        some { q with last_open_alert_ts := now_ms, updated_at_ts := now_ms }) := by
  refine ⟨?_, ?_, ?_, ?_, ?_⟩
  · by_cases hsig : is_open_signal snapshot cfg.threshold_open = true
    · simp only [PositionManager.process_open_signals, hsig]
      cases hlast : (DynamoStorage.list_positions s [Status.openPendingConfirm]).getLast? with
      | none => simp
      | some q =>
        by_cases hrep : should_repeat (some q.last_open_alert_ts) now_ms cfg.repeat_alert_sec =
          true
        · simp [hrep]
        · simp [Bool.eq_false_iff.mpr hrep]
    · have hsig' : is_open_signal snapshot cfg.threshold_open = false :=
        Bool.eq_false_iff.mpr hsig
      simp [PositionManager.process_open_signals, hsig']
  · intro hsig
    simp [PositionManager.process_open_signals, hsig]
  · intro hsig hpend hfr
    have hpa : put_item s (DynamoStorage.create_pending_position s fresh_id
        snapshot.spread_open snapshot.ts_ms now_ms).1 =
        s ++ [(DynamoStorage.create_pending_position s fresh_id snapshot.spread_open
          snapshot.ts_ms now_ms).1] :=
      put_item_append (fun q hq => hfr q hq)
    refine ⟨?_, rfl, rfl, rfl, rfl⟩
    simp only [PositionManager.process_open_signals, hsig]
    rw [hpend]
    simp only [List.getLast?_nil]
    rw [show (DynamoStorage.create_pending_position s fresh_id snapshot.spread_open
        snapshot.ts_ms now_ms).2 =
      put_item s (DynamoStorage.create_pending_position s fresh_id snapshot.spread_open
        snapshot.ts_ms now_ms).1 from rfl, hpa]
    simp
    rfl
  · intro q hsig hlast hrep
    simp only [PositionManager.process_open_signals, hsig]
    rw [hlast]
    simp [hrep]
  · intro q hsig hlast hrep hu
    have hmem := (getLast_mem_list_positions (by decide) hlast).1
    have hres : PositionManager.process_open_signals s snapshot cfg now_ms fresh_id =
        ⟨DynamoStorage.mark_open_alert_sent s q.position_id now_ms,
          [Notification.openSignal q.position_id true],
          [{ ts_ms := now_ms, alert_type := "OPEN_SIGNAL_REPEAT",
             position_id := q.position_id, message := "open signal reminder",
             spread := snapshot.spread_open }]⟩ := by
      simp only [PositionManager.process_open_signals, hsig]
      rw [hlast]
      simp [hrep]
    rw [hres]
    exact ⟨rfl, mark_open_alert_sent_length s q.position_id now_ms,
      mark_open_alert_sent_getPos now_ms hu hmem⟩

/-- C6 witness: on the empty store the open signal creates one position
and sends exactly one notification. -/
theorem process_open_signals_spec_witness :
    is_open_signal demoSnap demoCfg.threshold_open = true ∧
    DynamoStorage.list_positions ([] : Store) [Status.openPendingConfirm] = [] ∧
    PositionManager.process_open_signals [] demoSnap demoCfg 2000 "fresh" =
      ⟨[] ++ [(DynamoStorage.create_pending_position [] "fresh" demoSnap.spread_open
          demoSnap.ts_ms 2000).1],
        [Notification.openSignal "fresh" false],
        [{ ts_ms := 2000, alert_type := "OPEN_SIGNAL", position_id := "fresh",
           message := "open signal created", spread := demoSnap.spread_open }]⟩ := by
  have hsig : is_open_signal demoSnap demoCfg.threshold_open = true := by decide
  have hemp : DynamoStorage.list_positions ([] : Store) [Status.openPendingConfirm] = [] :=
    list_positions_eval (by decide) (by decide)
  exact ⟨hsig, hemp,
    ((process_open_signals_spec [] demoSnap demoCfg 2000 "fresh").2.2.1 hsig hemp
      (fun p hp => absurd hp (List.not_mem_nil p))).1⟩

/-! ### Lemmas about the close-signal loop (for C10) -/

lemma mark_close_signalled_some_inv {s : Store} {pid : String} {now : Int}
    {r : PositionRecord} {s' : Store}
    (h : DynamoStorage.mark_close_signalled s pid now = (some r, s')) :
    ∃ p, getPos s pid = some p ∧ p.status = Status.openConfirmed ∧
      r = DynamoStorage.closeSignalledUpdate p now := by
  by_cases hps : ∃ p, getPos s pid = some p ∧ p.status = Status.openConfirmed
  · obtain ⟨p, hp, hst⟩ := hps
    rw [mark_close_signalled_success hp hst now] at h
    exact ⟨p, hp, hst, (Option.some.inj (congrArg Prod.fst h)).symm⟩
  · push_neg at hps
    rw [mark_close_signalled_fail now (fun q hq hs => hps q hq hs)] at h
    cases congrArg Prod.fst h

lemma mark_close_signalled_some_id {s : Store} {pid : String} {now : Int}
    {r : PositionRecord} {s' : Store}
    (h : DynamoStorage.mark_close_signalled s pid now = (some r, s')) :
    r.position_id = pid := by
  obtain ⟨p, hp, _, hr⟩ := mark_close_signalled_some_inv h
  rw [hr]
  have := getPos_id hp
  simpa [DynamoStorage.closeSignalledUpdate] using this

lemma process_close_step_notifications (snapshot : MarketSnapshot) (cfg : RuntimeConfig)
    (now : Int) (acc : TickResult) (position : PositionRecord) :
    ∀ n ∈ (PositionManager.process_close_step snapshot cfg now acc position).notifications,
      n ∈ acc.notifications ∨ Notification.pid n = position.position_id := by
  intro n hn
  unfold PositionManager.process_close_step at hn
  cases hct : position.close_trigger with
  | none =>
    rw [hct] at hn
    exact Or.inl hn
  | some ct =>
    rw [hct] at hn
    by_cases h1 : position.status = Status.openConfirmed ∧
        is_close_signal snapshot position = true
    · rw [if_pos h1] at hn
      rcases hmk : DynamoStorage.mark_close_signalled acc.store position.position_id now with
        ⟨o, s2⟩
      rw [hmk] at hn
      cases o with
      | none => exact Or.inl hn
      | some updated =>
        simp only [List.mem_append, List.mem_singleton] at hn
        rcases hn with hn | hn
        · exact Or.inl hn
        · right
          rw [hn]
          exact mark_close_signalled_some_id hmk
    · rw [if_neg h1] at hn
      by_cases h2 : position.status = Status.closeSignalled ∧
          should_repeat position.last_close_alert_ts now cfg.repeat_alert_sec = true
      · rw [if_pos h2] at hn
        simp only [List.mem_append, List.mem_singleton] at hn
        rcases hn with hn | hn
        · exact Or.inl hn
        · right
          rw [hn]
          rfl
      · rw [if_neg h2] at hn
        exact Or.inl hn

lemma process_close_step_skip (snapshot : MarketSnapshot) (cfg : RuntimeConfig)
    (now : Int) {p : PositionRecord}
    (hst : p.status = Status.closeSignalled)
    (hrep : should_repeat p.last_close_alert_ts now cfg.repeat_alert_sec = false) :
    ∀ acc, PositionManager.process_close_step snapshot cfg now acc p = acc := by
  intro acc
  unfold PositionManager.process_close_step
  cases hct : p.close_trigger with
  | none => rfl
  | some ct =>
    have h1 : ¬(p.status = Status.openConfirmed ∧ is_close_signal snapshot p = true) := by
      simp [hst]
    have h2 : ¬(p.status = Status.closeSignalled ∧
        should_repeat p.last_close_alert_ts now cfg.repeat_alert_sec = true) := by
      simp [hrep]
    rw [if_neg h1, if_neg h2]

lemma process_close_foldl_pid (snapshot : MarketSnapshot) (cfg : RuntimeConfig)
    (now : Int) (tgt : String) :
    ∀ (l : List PositionRecord) (acc : TickResult),
      (∀ r ∈ l, r.position_id ≠ tgt ∨
        ∀ acc2, PositionManager.process_close_step snapshot cfg now acc2 r = acc2) →
      (∀ n ∈ acc.notifications, Notification.pid n ≠ tgt) →
      ∀ n ∈ (l.foldl (PositionManager.process_close_step snapshot cfg now)
          acc).notifications,
        Notification.pid n ≠ tgt := by
  intro l
  induction l with
  | nil =>
    intro acc h1 h2 n hn
    exact h2 n hn
  | cons r t ih =>
    intro acc h1 h2 n hn
    simp only [List.foldl_cons] at hn
    rcases h1 r (List.mem_cons_self _ _) with hne | hid
    · refine ih _ (fun x hx => h1 x (List.mem_cons_of_mem _ hx)) ?_ n hn
      intro m hm
      rcases process_close_step_notifications snapshot cfg now acc r m hm with hmem | hpid
      · exact h2 m hmem
      · rw [hpid]
        exact hne
    · rw [hid acc] at hn
      exact ih _ (fun x hx => h1 x (List.mem_cons_of_mem _ hx)) h2 n hn

/-- C10: every reminder-arming transition stamps its alert timestamp to
the transition time — `create_pending_position` stamps
`last_open_alert_ts := now`, `mark_close_signalled` stamps
`last_close_alert_ts` (and `close_signalled_ts`) `:= now` — and
`should_repeat` is false inside the repeat window, so a tick strictly
less than `repeat_alert_sec` after the stamp sends no open reminder and
no close notification for that position. -/
theorem alert_stamps_arm_cooldown :
    (∀ (s : Store) (pid : String) (sp : ℚ) (ts now : Int),
      (DynamoStorage.create_pending_position s pid sp ts now).1.last_open_alert_ts = now ∧
      (DynamoStorage.create_pending_position s pid sp ts now).1.status =
        Status.openPendingConfirm) ∧
    (∀ (s : Store) (pid : String) (now : Int) (r : PositionRecord) (s' : Store),
      DynamoStorage.mark_close_signalled s pid now = (some r, s') →
      r.last_close_alert_ts = some now ∧ r.close_signalled_ts = some now) ∧
    (∀ t now rep : Int, now - t < rep * 1000 →
      should_repeat (some t) now rep = false) ∧
    (∀ (s : Store) (snapshot : MarketSnapshot) (cfg : RuntimeConfig) (now : Int)
        (fresh_id : String) (q : PositionRecord),
      (DynamoStorage.list_positions s [Status.openPendingConfirm]).getLast? = some q →
      now - q.last_open_alert_ts < cfg.repeat_alert_sec * 1000 →
      (PositionManager.process_open_signals s snapshot cfg now fresh_id).notifications = []) ∧
    (∀ (s : Store) (snapshot : MarketSnapshot) (cfg : RuntimeConfig) (now : Int)
        (p : PositionRecord) (t : Int),
      UniqueIds s → p ∈ s → p.status = Status.closeSignalled →
      p.last_close_alert_ts = some t → now - t < cfg.repeat_alert_sec * 1000 →
      ∀ n ∈ (PositionManager.process_close_signals s snapshot cfg now).notifications,
        Notification.pid n ≠ p.position_id) := by
  refine ⟨fun s pid sp ts now => ⟨rfl, rfl⟩, ?_, ?_, ?_, ?_⟩
  · intro s pid now r s' h
    obtain ⟨p, _, _, hr⟩ := mark_close_signalled_some_inv h
    rw [hr]
    exact ⟨rfl, rfl⟩
  · intro t now rep hlt
    simp only [should_repeat, ge_iff_le, decide_eq_false_iff_not, not_le]
    omega
  · intro s snapshot cfg now fresh_id q hlast hlt
    have hrep : should_repeat (some q.last_open_alert_ts) now cfg.repeat_alert_sec = false := by
      simp only [should_repeat, ge_iff_le, decide_eq_false_iff_not, not_le]
      omega
    by_cases hsig : is_open_signal snapshot cfg.threshold_open = true
    · simp only [PositionManager.process_open_signals, hsig]
      rw [hlast]
      simp [hrep]
    · have hsig' : is_open_signal snapshot cfg.threshold_open = false :=
        Bool.eq_false_iff.mpr hsig
      simp [PositionManager.process_open_signals, hsig']
  · intro s snapshot cfg now p t hu hmem hst hlcts hlt n hn
    have hrep : should_repeat p.last_close_alert_ts now cfg.repeat_alert_sec = false := by
      rw [hlcts]
      simp only [should_repeat, ge_iff_le, decide_eq_false_iff_not, not_le]
      omega
    unfold PositionManager.process_close_signals at hn
    refine process_close_foldl_pid snapshot cfg now p.position_id _ _ ?_ ?_ n hn
    · intro r hr
      have hrs := (mem_list_positions (by decide) hr).1
      by_cases hpe : r.position_id = p.position_id
      · have : r = p := List.inj_on_of_nodup_map hu hrs hmem hpe
        subst this
        exact Or.inr (process_close_step_skip snapshot cfg now hst hrep)
      · exact Or.inl hpe
    · intro m hm
      cases hm

/-- C10 witness: a pending position stamped at 1, polled at 1000 (inside
the 300 s window), triggers no notification; and the close-signalled demo
position stamped at 1000, polled at 2000, gets no close reminder. -/
theorem alert_stamps_arm_cooldown_witness :
    (DynamoStorage.list_positions demoStore1 [Status.openPendingConfirm]).getLast? =
      some demoPending1 ∧
    (1000 : Int) - demoPending1.last_open_alert_ts < demoCfg.repeat_alert_sec * 1000 ∧
    (PositionManager.process_open_signals demoStore1 demoSnap demoCfg 1000 "f").notifications =
      [] ∧
    (∀ n ∈ (PositionManager.process_close_signals demoCloseSigStore demoSnap demoCfg
        2000).notifications, Notification.pid n ≠ demoCloseSig1.position_id) := by
  have hlast : (DynamoStorage.list_positions demoStore1
      [Status.openPendingConfirm]).getLast? = some demoPending1 := by
    rw [list_positions_eval (show (if ([Status.openPendingConfirm] : List Status).isEmpty
      then demoStore1 else demoStore1.filter
        (fun p => [Status.openPendingConfirm].contains p.status)) = [demoPending1] by decide)
      (by decide)]
    rfl
  have hu : UniqueIds demoCloseSigStore := by
    unfold UniqueIds
    decide
  refine ⟨hlast, by decide, ?_, ?_⟩
  · exact alert_stamps_arm_cooldown.2.2.2.1 demoStore1 demoSnap demoCfg 1000 "f"
      demoPending1 hlast (by decide)
  · exact alert_stamps_arm_cooldown.2.2.2.2 demoCloseSigStore demoSnap demoCfg 2000
      demoCloseSig1 1000 hu (List.mem_cons_self _ _) rfl rfl (by decide)

/-- C2: across any sequence of lifecycle operations (with `create` ids
uuid-fresh for the tracked position), a position's status only moves
forward in the order PENDING_CONFIRM < OPEN_CONFIRMED < CLOSE_SIGNALLED
< CLOSED; and each status-changing write fails with `None` exactly when
its status precondition does not hold (confirmOpen needs
PENDING_CONFIRM, markCloseSignalled needs OPEN_CONFIRMED, closePosition
needs OPEN_CONFIRMED or CLOSE_SIGNALLED), a failure leaving the store
unchanged. -/
theorem lifecycle_status_monotone :
    (∀ (s : Store) (ops : List LifeOp) (pid : String) (p p' : PositionRecord),
      (∀ lop ∈ ops, lop.createdId ≠ some pid) →
      getPos s pid = some p →
      getPos (applyOps s ops) pid = some p' →
      statusRank p.status ≤ statusRank p'.status) ∧
    (∀ (s : Store) (pid : String) (e b : ℚ) (now : Int) (chat : String),
      ((DynamoStorage.confirm_open s pid e b now chat).1 = none ↔
        ∀ q, getPos s pid = some q → q.status ≠ Status.openPendingConfirm) ∧
      ((DynamoStorage.confirm_open s pid e b now chat).1 = none →
        (DynamoStorage.confirm_open s pid e b now chat).2 = s)) ∧
    (∀ (s : Store) (pid : String) (now : Int),
      ((DynamoStorage.mark_close_signalled s pid now).1 = none ↔
        ∀ q, getPos s pid = some q → q.status ≠ Status.openConfirmed) ∧
      ((DynamoStorage.mark_close_signalled s pid now).1 = none →
        (DynamoStorage.mark_close_signalled s pid now).2 = s)) ∧
    (∀ (s : Store) (pid : String) (c : ℚ) (now : Int) (chat : String),
      ((DynamoStorage.close_position s pid c now chat).1 = none ↔
        ∀ q, getPos s pid = some q →
          ¬(q.status = Status.openConfirmed ∨ q.status = Status.closeSignalled)) ∧
      ((DynamoStorage.close_position s pid c now chat).1 = none →
        (DynamoStorage.close_position s pid c now chat).2 = s)) := by
  refine ⟨?_, ?_, ?_, ?_⟩
  · intro s ops pid p p' hfresh hp hp'
    obtain ⟨p2, hp2, hr⟩ := applyOps_mono hfresh hp
    have : p2 = p' := Option.some.inj (hp2.symm.trans hp')
    rw [← this]
    exact hr
  · intro s pid e b now chat
    exact ⟨confirm_open_fst_none_iff s pid e b now chat, fun h => confirm_open_none_frame h⟩
  · intro s pid now
    exact ⟨mark_close_signalled_fst_none_iff s pid now,
      fun h => mark_close_signalled_none_frame h⟩
  · intro s pid c now chat
    exact ⟨close_position_fst_none_iff s pid c now chat,
      fun h => close_position_none_frame h⟩

/-- C2 witness: the one-pending store advanced by one confirmOpen — the
status rank moves from PENDING_CONFIRM forward to OPEN_CONFIRMED. -/
theorem lifecycle_status_monotone_witness :
    (∀ lop ∈ [LifeOp.confirmOpen "p1" 39 0 5 "a"], lop.createdId ≠ some "p1") ∧
    getPos demoStore1 "p1" = some demoPending1 ∧
    getPos (applyOps demoStore1 [LifeOp.confirmOpen "p1" 39 0 5 "a"]) "p1" =
      some (DynamoStorage.confirmOpenUpdate demoPending1 39 0 5 "a") ∧
    statusRank demoPending1.status ≤
      statusRank (DynamoStorage.confirmOpenUpdate demoPending1 39 0 5 "a").status := by
  have h1 : ∀ lop ∈ [LifeOp.confirmOpen "p1" 39 0 5 "a"], lop.createdId ≠ some "p1" := by
    intro lop hl
    rw [List.mem_singleton.mp hl]
    simp [LifeOp.createdId]
  have h2 : getPos demoStore1 "p1" = some demoPending1 := rfl
  have h3 : getPos (applyOps demoStore1 [LifeOp.confirmOpen "p1" 39 0 5 "a"]) "p1" =
      some (DynamoStorage.confirmOpenUpdate demoPending1 39 0 5 "a") := by
    show getPos (applyOp demoStore1 (LifeOp.confirmOpen "p1" 39 0 5 "a")) "p1" = _
    rw [show applyOp demoStore1 (LifeOp.confirmOpen "p1" 39 0 5 "a") =
        (DynamoStorage.confirm_open demoStore1 "p1" 39 0 5 "a").2 from rfl,
      confirm_open_success h2 rfl 39 0 5 "a"]
    exact getPos_updateById_self _ h2 rfl
  exact ⟨h1, h2, h3,
    lifecycle_status_monotone.1 demoStore1 [LifeOp.confirmOpen "p1" 39 0 5 "a"] "p1"
      demoPending1 (DynamoStorage.confirmOpenUpdate demoPending1 39 0 5 "a") h1 h2 h3⟩

/-! ### Field-projection lemmas for the override merge (C4) -/

lemma apply_threshold_open_other (ov : OverrideMap) (c : RuntimeConfig) :
    (RuntimeConfigStore.apply_threshold_open ov c).close_buffer = c.close_buffer ∧
    (RuntimeConfigStore.apply_threshold_open ov c).repeat_alert_sec = c.repeat_alert_sec ∧
    (RuntimeConfigStore.apply_threshold_open ov c).annual_factor = c.annual_factor ∧
    (RuntimeConfigStore.apply_threshold_open ov c).poll_interval_sec = c.poll_interval_sec := by
  unfold RuntimeConfigStore.apply_threshold_open
  cases hk : lookupKey ov "threshold_open" with
  | none => exact ⟨rfl, rfl, rfl, rfl⟩
  | some raw =>
    cases hf : pyFloat raw with
    | none => simp [hf]
    | some v => simp [hf]

lemma apply_close_buffer_other (ov : OverrideMap) (c : RuntimeConfig) :
    (RuntimeConfigStore.apply_close_buffer ov c).threshold_open = c.threshold_open ∧
    (RuntimeConfigStore.apply_close_buffer ov c).repeat_alert_sec = c.repeat_alert_sec ∧
    (RuntimeConfigStore.apply_close_buffer ov c).annual_factor = c.annual_factor ∧
    (RuntimeConfigStore.apply_close_buffer ov c).poll_interval_sec = c.poll_interval_sec := by
  unfold RuntimeConfigStore.apply_close_buffer
  cases hk : lookupKey ov "close_buffer" with
  | none => exact ⟨rfl, rfl, rfl, rfl⟩
  | some raw =>
    cases hf : pyFloat raw with
    | none => simp [hf]
    | some v => simp [hf]

lemma apply_repeat_alert_sec_other (ov : OverrideMap) (c : RuntimeConfig) :
    (RuntimeConfigStore.apply_repeat_alert_sec ov c).threshold_open = c.threshold_open ∧
    (RuntimeConfigStore.apply_repeat_alert_sec ov c).close_buffer = c.close_buffer ∧
    (RuntimeConfigStore.apply_repeat_alert_sec ov c).annual_factor = c.annual_factor ∧
    (RuntimeConfigStore.apply_repeat_alert_sec ov c).poll_interval_sec =
      c.poll_interval_sec := by
  unfold RuntimeConfigStore.apply_repeat_alert_sec
  cases hk : lookupKey ov "repeat_alert_sec" with
  | none => exact ⟨rfl, rfl, rfl, rfl⟩
  | some raw =>
    cases hf : pyInt raw with
    | none => simp [hf]
    | some v => simp [hf]

lemma apply_annual_factor_other (ov : OverrideMap) (c : RuntimeConfig) :
    (RuntimeConfigStore.apply_annual_factor ov c).threshold_open = c.threshold_open ∧
    (RuntimeConfigStore.apply_annual_factor ov c).close_buffer = c.close_buffer ∧
    (RuntimeConfigStore.apply_annual_factor ov c).repeat_alert_sec = c.repeat_alert_sec ∧
    (RuntimeConfigStore.apply_annual_factor ov c).poll_interval_sec =
      c.poll_interval_sec := by
  unfold RuntimeConfigStore.apply_annual_factor
  cases hk : lookupKey ov "annual_factor" with
  | none => exact ⟨rfl, rfl, rfl, rfl⟩
  | some raw =>
    cases hf : pyFloat raw with
    | none => simp [hf]
    | some v => simp [hf]

lemma apply_poll_interval_sec_other (ov : OverrideMap) (c : RuntimeConfig) :
    (RuntimeConfigStore.apply_poll_interval_sec ov c).threshold_open = c.threshold_open ∧
    (RuntimeConfigStore.apply_poll_interval_sec ov c).close_buffer = c.close_buffer ∧
    (RuntimeConfigStore.apply_poll_interval_sec ov c).repeat_alert_sec =
      c.repeat_alert_sec ∧
    (RuntimeConfigStore.apply_poll_interval_sec ov c).annual_factor = c.annual_factor := by
  unfold RuntimeConfigStore.apply_poll_interval_sec
  cases hk : lookupKey ov "poll_interval_sec" with
  | none => exact ⟨rfl, rfl, rfl, rfl⟩
  | some raw =>
    cases hf : pyFloat raw with
    | none => simp [hf]
    | some v => simp [hf]

lemma apply_allowed_chat_ids_other (ov : OverrideMap) (c : RuntimeConfig) :
    (RuntimeConfigStore.apply_allowed_chat_ids ov c).threshold_open = c.threshold_open ∧
    (RuntimeConfigStore.apply_allowed_chat_ids ov c).close_buffer = c.close_buffer ∧
    (RuntimeConfigStore.apply_allowed_chat_ids ov c).repeat_alert_sec =
      c.repeat_alert_sec ∧
    (RuntimeConfigStore.apply_allowed_chat_ids ov c).annual_factor = c.annual_factor ∧
    (RuntimeConfigStore.apply_allowed_chat_ids ov c).poll_interval_sec =
      c.poll_interval_sec := by
  unfold RuntimeConfigStore.apply_allowed_chat_ids
  cases hk : lookupKey ov "allowed_chat_ids" with
  | none => exact ⟨rfl, rfl, rfl, rfl, rfl⟩
  | some raw => exact ⟨rfl, rfl, rfl, rfl, rfl⟩

lemma apply_threshold_open_skip {ov : OverrideMap} {raw : PyValue} (c : RuntimeConfig)
    (hk : lookupKey ov "threshold_open" = some raw) (hf : pyFloat raw = none) :
    RuntimeConfigStore.apply_threshold_open ov c = c := by
  unfold RuntimeConfigStore.apply_threshold_open
  simp [hk, hf]

lemma apply_close_buffer_skip {ov : OverrideMap} {raw : PyValue} (c : RuntimeConfig)
    (hk : lookupKey ov "close_buffer" = some raw) (hf : pyFloat raw = none) :
    RuntimeConfigStore.apply_close_buffer ov c = c := by
  unfold RuntimeConfigStore.apply_close_buffer
  simp [hk, hf]

lemma apply_repeat_alert_sec_skip {ov : OverrideMap} {raw : PyValue} (c : RuntimeConfig)
    (hk : lookupKey ov "repeat_alert_sec" = some raw) (hf : pyInt raw = none) :
    RuntimeConfigStore.apply_repeat_alert_sec ov c = c := by
  unfold RuntimeConfigStore.apply_repeat_alert_sec
  simp [hk, hf]

lemma apply_annual_factor_skip {ov : OverrideMap} {raw : PyValue} (c : RuntimeConfig)
    (hk : lookupKey ov "annual_factor" = some raw) (hf : pyFloat raw = none) :
    RuntimeConfigStore.apply_annual_factor ov c = c := by
  unfold RuntimeConfigStore.apply_annual_factor
  simp [hk, hf]

lemma apply_poll_interval_sec_skip {ov : OverrideMap} {raw : PyValue} (c : RuntimeConfig)
    (hk : lookupKey ov "poll_interval_sec" = some raw) (hf : pyFloat raw = none) :
    RuntimeConfigStore.apply_poll_interval_sec ov c = c := by
  unfold RuntimeConfigStore.apply_poll_interval_sec
  simp [hk, hf]

/-- C4 counterexample: a valid threshold override (50) is merged and
effective; a later refresh whose stored override fails its cast does NOT
keep the prior effective value 50 — `_merge_overrides` restarts from the
BASE config, so the key reverts to the base value 40. -/
theorem refresh_unparseable_override_reverts_to_base :
    (RuntimeConfigStore.refresh demoCfgState0 demoOverridesGood
      30000).2.current.threshold_open = 50 ∧
    (RuntimeConfigStore.refresh
      (RuntimeConfigStore.refresh demoCfgState0 demoOverridesGood 30000).2
      demoOverridesBad 60000).2.current.threshold_open = 40 ∧
    (40 : ℚ) ≠ 50 := by
  refine ⟨by decide, by decide, by norm_num⟩

/-- C4 (amended): when the override store is re-merged during `refresh`,
a recognized key whose stored override fails its cast is dropped
silently and the BASE configuration's value for that key stays in effect
(the merge restarts from the base layer, so a previously applied valid
override is reverted to the base value rather than retained); the
configuration therefore never takes an unparseable value. -/
theorem merge_overrides_unparseable_keeps_base (base : RuntimeConfig) (ov : OverrideMap) :
    (∀ raw, lookupKey ov "threshold_open" = some raw → pyFloat raw = none →
      (RuntimeConfigStore.merge_overrides base ov).threshold_open =
        base.threshold_open) ∧
    (∀ raw, lookupKey ov "close_buffer" = some raw → pyFloat raw = none →
      (RuntimeConfigStore.merge_overrides base ov).close_buffer = base.close_buffer) ∧
    (∀ raw, lookupKey ov "repeat_alert_sec" = some raw → pyInt raw = none →
      (RuntimeConfigStore.merge_overrides base ov).repeat_alert_sec =
        base.repeat_alert_sec) ∧
    (∀ raw, lookupKey ov "annual_factor" = some raw → pyFloat raw = none →
      (RuntimeConfigStore.merge_overrides base ov).annual_factor = base.annual_factor) ∧
    (∀ raw, lookupKey ov "poll_interval_sec" = some raw → pyFloat raw = none →
      (RuntimeConfigStore.merge_overrides base ov).poll_interval_sec =
        base.poll_interval_sec) ∧
    (∀ (st : RuntimeConfigStore.State) (now_ms : Int),
      ¬ now_ms - st.last_refresh_ms < st.current.config_refresh_sec * 1000 →
      (RuntimeConfigStore.refresh st ov now_ms).2.current =
        RuntimeConfigStore.merge_overrides st.base ov) := by
  refine ⟨?_, ?_, ?_, ?_, ?_, ?_⟩
  · intro raw hk hf
    unfold RuntimeConfigStore.merge_overrides
    rw [(apply_allowed_chat_ids_other ov _).1, (apply_poll_interval_sec_other ov _).1,
      (apply_annual_factor_other ov _).1, (apply_repeat_alert_sec_other ov _).1,
      (apply_close_buffer_other ov _).1, apply_threshold_open_skip base hk hf]
  · intro raw hk hf
    unfold RuntimeConfigStore.merge_overrides
    rw [(apply_allowed_chat_ids_other ov _).2.1, (apply_poll_interval_sec_other ov _).2.1,
      (apply_annual_factor_other ov _).2.1, (apply_repeat_alert_sec_other ov _).2.1,
      apply_close_buffer_skip _ hk hf, (apply_threshold_open_other ov _).1]
  · intro raw hk hf
    unfold RuntimeConfigStore.merge_overrides
    rw [(apply_allowed_chat_ids_other ov _).2.2.1,
      (apply_poll_interval_sec_other ov _).2.2.1, (apply_annual_factor_other ov _).2.2.1,
      apply_repeat_alert_sec_skip _ hk hf, (apply_close_buffer_other ov _).2.1,
      (apply_threshold_open_other ov _).2.1]
  · intro raw hk hf
    unfold RuntimeConfigStore.merge_overrides
    rw [(apply_allowed_chat_ids_other ov _).2.2.2.1,
      (apply_poll_interval_sec_other ov _).2.2.2, apply_annual_factor_skip _ hk hf,
      (apply_repeat_alert_sec_other ov _).2.2.1, (apply_close_buffer_other ov _).2.2.1,
      (apply_threshold_open_other ov _).2.2.1]
  · intro raw hk hf
    unfold RuntimeConfigStore.merge_overrides
    rw [(apply_allowed_chat_ids_other ov _).2.2.2.2, apply_poll_interval_sec_skip _ hk hf,
      (apply_annual_factor_other ov _).2.2.2, (apply_repeat_alert_sec_other ov _).2.2.2,
      (apply_close_buffer_other ov _).2.2.2, (apply_threshold_open_other ov _).2.2.2]
  · intro st now_ms h
    unfold RuntimeConfigStore.refresh
    rw [if_neg h]

/-- C4 witness: the unparseable demo override for `threshold_open` leaves
the merged value at the base (40). -/
theorem merge_overrides_unparseable_keeps_base_witness :
    lookupKey demoOverridesBad "threshold_open" = some PyValue.pynone ∧
    pyFloat PyValue.pynone = none ∧
    (RuntimeConfigStore.merge_overrides demoCfg demoOverridesBad).threshold_open =
      demoCfg.threshold_open :=
  ⟨rfl, rfl, (merge_overrides_unparseable_keeps_base demoCfg demoOverridesBad).1
    PyValue.pynone rfl rfl⟩

end VarGold
